import Mathlib

/-!
Verification development for the MTG Card Database backend
(`backend/app/main.py`): a shallow embedding of the query builder, the
in-memory cache layer and the response normalizer, together with theorems
about their behaviour.

Conventions of the embedding:
* Python `str` values that may be `None` become `Option String`; Python
  truthiness of such a value (`if s:`) is `pyTruthy`.
* Python dicts read via `.get` are embedded as structures whose fields are
  the keys the code reads; a raw face dict is "truthy" when it is
  non-empty, i.e. when at least one of the modelled fields is present.
* Timestamps are integers (seconds); `CACHE_DURATION` is 10 minutes.
* The module-level `cache` dict becomes an association list passed in and
  returned explicitly; `httpx` calls become an `upstream` function from the
  request parameters to the response, and each handler additionally
  returns the request it sent upstream (`none` when no call was made).
-/

/-- Python truthiness of an optional string: `None` and `""` are falsy. -/
def pyTruthy : Option String → Bool
  | some s => s ≠ ""
  | none => false

/-- `x or ""` on an optional string. -/
def orEmpty : Option String → String
  | some s => s
  | none => ""

/-- `a or b` on optional strings: keep `a` when it is truthy. -/
def pyOrStr (a b : Option String) : Option String :=
  if pyTruthy a then a else b

/-- Characters Python `str.strip()` removes (ASCII whitespace). -/
def isPySpace (c : Char) : Bool :=
  c = ' ' ∨ c = '\t' ∨ c = '\n' ∨ c = '\r' ∨ c = '\x0b' ∨ c = '\x0c'

/-- `str.strip()`: drop whitespace from both ends. -/
def pyStrip (s : String) : String :=
  ⟨(((s.toList.dropWhile isPySpace).reverse.dropWhile isPySpace).reverse)⟩

/-- ASCII upper-casing of one character, as Python `str.upper()` does on ASCII. -/
def pyUpperChar (c : Char) : Char :=
  if 'a' ≤ c ∧ c ≤ 'z' then Char.ofNat (c.toNat - 32) else c

/-- ASCII lower-casing of one character, as Python `str.lower()` does on ASCII. -/
def pyLowerChar (c : Char) : Char :=
  if 'A' ≤ c ∧ c ≤ 'Z' then Char.ofNat (c.toNat + 32) else c

/-- `str.upper()` (ASCII). -/
def pyUpper (s : String) : String := ⟨s.toList.map pyUpperChar⟩

/-- `str.lower()` (ASCII). -/
def pyLower (s : String) : String := ⟨s.toList.map pyLowerChar⟩

/-- Helper for `pySplit`: accumulate the current field, flush at each separator. -/
def pySplitAux (sep : Char) : List Char → List Char → List (List Char)
  | [], acc => [acc.reverse]
  | c :: cs, acc =>
      if c = sep then acc.reverse :: pySplitAux sep cs []
      else pySplitAux sep cs (c :: acc)

/-- Python `s.split(sep)` for a one-character separator: `"".split(",") = [""]`,
`"a,,b".split(",") = ["a","","b"]`. -/
def pySplit (s : String) (sep : Char) : List String :=
  (pySplitAux sep s.toList []).map (fun l => ⟨l⟩)

/-- `" ".join(parts)`. -/
def joinSpace : List String → String
  | [] => ""
  | [x] => x
  | x :: y :: xs => x ++ " " ++ joinSpace (y :: xs)

/-! ## Cache layer

`cache = {}` with entries `cache[key] = (data, timestamp)`; embedded as an
association list from key to payload-and-timestamp, newest binding first. -/

/-- `CACHE_DURATION = timedelta(minutes=10)`, in seconds. -/
def CACHE_DURATION : Int := 600

/-- One cache entry: the stored payload and its creation timestamp
(`cache[key] = (data, now)`). -/
structure CacheEntry (α : Type) where
  payload : α
  timestamp : Int
  deriving DecidableEq

/-- The module-level `cache` dict. -/
def Cache (α : Type) : Type := List (String × CacheEntry α)

instance (α : Type) [DecidableEq α] : DecidableEq (Cache α) :=
  inferInstanceAs (DecidableEq (List (String × CacheEntry α)))

/-- `is_cache_valid(timestamp)`: `datetime.now() - timestamp < CACHE_DURATION`. -/
def is_cache_valid (now timestamp : Int) : Bool :=
  now - timestamp < CACHE_DURATION

/-- `cache_key in cache` / `cache[cache_key]`: first binding for the key. -/
def cacheGetRaw {α : Type} (c : Cache α) (k : String) : Option (CacheEntry α) :=
  match c.find? (fun p => p.1 = k) with
  | some p => some p.2
  | none => none

/-- `del cache[key]`. -/
def cacheErase {α : Type} (c : Cache α) (k : String) : Cache α :=
  c.filter (fun p => ¬ p.1 = k)

/-- `cache[key] = (payload, now)`: insert or replace. -/
def cacheInsert {α : Type} (c : Cache α) (k : String) (e : CacheEntry α) : Cache α :=
  (k, e) :: cacheErase c k

/-- The cache-read step both handlers perform: return the payload on a fresh
hit; on a hit whose entry has expired, delete the entry and miss. -/
def cacheGet {α : Type} (c : Cache α) (k : String) (now : Int) :
    Option α × Cache α :=
  match cacheGetRaw c k with
  | none => (none, c)
  | some e =>
      if is_cache_valid now e.timestamp then (some e.payload, c)
      else (none, cacheErase c k)

/-! ## Query builder -/

/-- `get_cache_key(query, page, colors, types, rarity)`:
`f"search:{query}:{page}:{colors}:{types}:{rarity}"`. -/
def get_cache_key (query : String) (page : Nat) (colors types rarity : String) :
    String :=
  "search:" ++ query ++ ":" ++ Nat.repr page ++ ":" ++ colors ++ ":" ++
    types ++ ":" ++ rarity

/-- The `search_parts` list built inside `search_cards`: text token, one
colors token, one token per type, one rarity token. -/
def search_parts (q colors types rarity : Option String) : List String :=
  let p1 : List String :=
    if pyTruthy q ∧ pyStrip (orEmpty q) ≠ "" then [pyStrip (orEmpty q)] else []
  let p2 : List String :=
    if pyTruthy colors then
      ["c:" ++ String.join ((pySplit (orEmpty colors) ',').map
        (fun c => pyUpper (pyStrip c)))]
    else []
  let p3 : List String :=
    if pyTruthy types then
      ((pySplit (orEmpty types) ',').map
        (fun t => "t:" ++ pyLower (pyStrip t)))
    else []
  let p4 : List String :=
    if pyTruthy rarity then ["r:" ++ pyLower (orEmpty rarity)] else []
  p1 ++ p2 ++ p3 ++ p4

/-- The `search_query` string: wildcard when no filter produced a token,
else the tokens joined with single spaces. -/
def build_search_query (q colors types rarity : Option String) : String :=
  let parts := search_parts q colors types rarity
  let parts := if parts = [] then ["*"] else parts
  joinSpace parts

/-! ## Raw upstream records

A Scryfall card record, restricted to the keys the code reads with `.get`.
String-valued keys become `Option String` (absent key, or a JSON `null`,
is `none`); the `image_uris` and `prices` dicts become association lists. -/

/-- One entry of `card["card_faces"]`, restricted to the keys the code reads. -/
structure RawFace where
  name : Option String
  mana_cost : Option String
  type_line : Option String
  oracle_text : Option String
  power : Option String
  toughness : Option String
  image_uris : Option (List (String × String))
  deriving DecidableEq

/-- Truthiness of a face dict (`if back_face:`): non-empty, i.e. at least one
of the modelled keys is present. -/
def RawFace.truthy (f : RawFace) : Bool :=
  f.name.isSome ∨ f.mana_cost.isSome ∨ f.type_line.isSome ∨
  f.oracle_text.isSome ∨ f.power.isSome ∨ f.toughness.isSome ∨
  f.image_uris.isSome

/-- The empty face dict (`{}` used for a missing front face). -/
def emptyRawFace : RawFace := ⟨none, none, none, none, none, none, none⟩

/-- A raw upstream card record, restricted to the keys the code reads. -/
structure RawCard where
  id : Option String
  name : Option String
  mana_cost : Option String
  type_line : Option String
  oracle_text : Option String
  power : Option String
  toughness : Option String
  colors : Option (List String)
  rarity : Option String
  set_name : Option String
  set_code : Option String
  collector_number : Option String
  released_at : Option String
  artist : Option String
  flavor_text : Option String
  image_uris : Option (List (String × String))
  scryfall_uri : Option String
  prices : Option (List (String × String))
  card_faces : Option (List RawFace)
  deriving DecidableEq

/-- A raw record with every key absent. -/
def emptyRawCard : RawCard :=
  ⟨none, none, none, none, none, none, none, none, none, none, none, none,
   none, none, none, none, none, none, none⟩

/-- Truthiness of `card.get("card_faces")`: a present, non-empty list. -/
def pyTruthyFaces : Option (List RawFace) → Bool
  | some l => l ≠ []
  | none => false

/-- `front_face.get("image_uris") or card.get("image_uris", {})`: the front
dict when non-empty, else the top-level dict (defaulting to `{}`). -/
def pyOrDict (f : Option (List (String × String)))
    (c : List (String × String)) : List (String × String) :=
  match f with
  | some l => if l = [] then c else l
  | none => c

/-! ## Normalized records -/

/-- One face of the normalized `card_faces` value. -/
structure FaceRecord where
  name : Option String
  mana_cost : Option String
  type_line : Option String
  oracle_text : Option String
  power : Option String
  toughness : Option String
  image_uris : List (String × String)
  deriving DecidableEq

/-- The normalized `card_faces` value of a double-faced card. -/
structure CardFaces where
  front : FaceRecord
  back : Option FaceRecord
  deriving DecidableEq

/-- The normalized `card_info` dict built for each card in `search_cards`. -/
structure CardInfo where
  id : Option String
  name : Option String
  mana_cost : Option String
  type_line : Option String
  oracle_text : Option String
  power : Option String
  toughness : Option String
  colors : List String
  rarity : Option String
  set_name : Option String
  collector_number : Option String
  image_uris : List (String × String)
  scryfall_uri : Option String
  prices : List (String × String)
  has_multiple_faces : Bool
  card_faces : Option CardFaces
  deriving DecidableEq

/-- The per-card body of the normalization loop in `search_cards`. -/
def normalize_card (card : RawCard) : CardInfo :=
  if pyTruthyFaces card.card_faces then
    let faces := card.card_faces.getD []
    let front_face := faces.headD emptyRawFace
    let back_face := faces[1]?
    let backTruthy : Bool :=
      match back_face with
      | some bf => bf.truthy
      | none => false
    { id := card.id
      name := card.name
      mana_cost := pyOrStr front_face.mana_cost card.mana_cost
      type_line := pyOrStr front_face.type_line card.type_line
      oracle_text := pyOrStr front_face.oracle_text card.oracle_text
      power := front_face.power
      toughness := front_face.toughness
      colors := card.colors.getD []
      rarity := card.rarity
      set_name := card.set_name
      collector_number := card.collector_number
      image_uris := pyOrDict front_face.image_uris (card.image_uris.getD [])
      scryfall_uri := card.scryfall_uri
      prices := card.prices.getD []
      has_multiple_faces := true
      card_faces := some
        { front :=
            { name := front_face.name
              mana_cost := front_face.mana_cost
              type_line := front_face.type_line
              oracle_text := front_face.oracle_text
              power := front_face.power
              toughness := front_face.toughness
              image_uris := front_face.image_uris.getD [] }
          back :=
            if backTruthy then
              match back_face with
              | some bf => some
                  { name := bf.name
                    mana_cost := bf.mana_cost
                    type_line := bf.type_line
                    oracle_text := bf.oracle_text
                    power := bf.power
                    toughness := bf.toughness
                    image_uris := bf.image_uris.getD [] }
              | none => none
            else none } }
  else
    { id := card.id
      name := card.name
      mana_cost := card.mana_cost
      type_line := card.type_line
      oracle_text := card.oracle_text
      power := card.power
      toughness := card.toughness
      colors := card.colors.getD []
      rarity := card.rarity
      set_name := card.set_name
      collector_number := card.collector_number
      image_uris := card.image_uris.getD []
      scryfall_uri := card.scryfall_uri
      prices := card.prices.getD []
      has_multiple_faces := false
      card_faces := none }

/-! ## The search endpoint -/

/-- What the upstream search endpoint answers one request with. -/
inductive UpstreamResp where
  | notFound
  | ok (data : List RawCard) (total_cards : Nat) (has_more : Bool)
  | timeout
  | httpError (status : Nat) (body : String)
  deriving DecidableEq

/-- An `HTTPException(status_code, detail)`. -/
structure HTTPErr where
  status_code : Nat
  detail : String
  deriving DecidableEq

/-- The response dict of `search_cards`; keys a branch does not set are
`none`. -/
structure SearchResult where
  data : List CardInfo
  total_cards : Nat
  has_more : Bool
  page : Nat
  next_page : Option Nat
  message : Option String
  deriving DecidableEq

/-- The payload returned when no search criteria were given. -/
def noCriteriaResult (page : Nat) : SearchResult :=
  ⟨[], 0, false, page, none, some "Please provide a search query or apply filters."⟩

/-- The payload returned (and cached) on an upstream 404. -/
def notFoundResult (page : Nat) : SearchResult :=
  ⟨[], 0, false, page, none, some "No cards found matching your search."⟩

/-- `search_cards(q, page, colors, types, rarity)`. Besides the response it
returns the cache state after the call and the request sent upstream
(`none` when upstream was never contacted). -/
def search_cards (q : Option String) (page : Nat)
    (colors types rarity : Option String)
    (c : Cache SearchResult) (now : Int)
    (upstream : String → Nat → UpstreamResp) :
    Except HTTPErr SearchResult × Cache SearchResult × Option (String × Nat) :=
  if ¬ pyTruthy q ∧ ¬ pyTruthy colors ∧ ¬ pyTruthy types ∧ ¬ pyTruthy rarity then
    (.ok (noCriteriaResult page), c, none)
  else
    let cache_key := get_cache_key (orEmpty q) page (orEmpty colors)
      (orEmpty types) (orEmpty rarity)
    match cacheGet c cache_key now with
    | (some payload, c1) => (.ok payload, c1, none)
    | (none, c1) =>
      let search_query := build_search_query q colors types rarity
      match upstream search_query page with
      | .notFound =>
          let result := notFoundResult page
          (.ok result, cacheInsert c1 cache_key ⟨result, now⟩,
           some (search_query, page))
      | .ok data total has_more =>
          let cards := data.map normalize_card
          let result : SearchResult :=
            ⟨cards, total, has_more, page,
             if has_more then some (page + 1) else none, none⟩
          (.ok result, cacheInsert c1 cache_key ⟨result, now⟩,
           some (search_query, page))
      | .timeout =>
          (.error ⟨504, "Request to Scryfall API timed out"⟩, c1,
           some (search_query, page))
      | .httpError status body =>
          (.error ⟨status, "Scryfall API error: " ++ body⟩, c1,
           some (search_query, page))

/-! ## Cache statistics -/

/-- The response of `GET /cache/stats` (without the constant minutes field). -/
structure CacheStats where
  total_entries : Nat
  valid_entries : Nat
  expired_entries : Nat
  deriving DecidableEq

/-- `get_cache_stats()`: scan the cache, counting valid and expired entries.
The cache is returned unchanged — the handler only reads it. -/
def get_cache_stats {α : Type} (c : Cache α) (now : Int) :
    CacheStats × Cache α :=
  (⟨c.length,
    c.countP (fun p => is_cache_valid now p.2.timestamp),
    c.countP (fun p => ¬ is_cache_valid now p.2.timestamp)⟩, c)

/-! ## The printings endpoint -/

/-- The normalized `printing_info` dict built in `get_card_printings`. -/
structure PrintingInfo where
  id : Option String
  name : Option String
  set_name : Option String
  set_code : Option String
  collector_number : Option String
  released_at : Option String
  rarity : Option String
  artist : Option String
  flavor_text : Option String
  image_uris : List (String × String)
  back_image_uris : Option (List (String × String))
  prices : List (String × String)
  scryfall_uri : Option String
  deriving DecidableEq

/-- The per-card body of the printings normalization loop. -/
def normalize_printing (card : RawCard) : PrintingInfo :=
  let image_uris0 := card.image_uris.getD []
  let pair : List (String × String) × List (String × String) :=
    if image_uris0 = [] ∧ pyTruthyFaces card.card_faces then
      let faces := card.card_faces.getD []
      let front_face := faces.headD emptyRawFace
      let back_face := faces[1]?
      (front_face.image_uris.getD [],
       match back_face with
       | some bf => if bf.truthy then bf.image_uris.getD [] else []
       | none => [])
    else (image_uris0, [])
  { id := card.id
    name := card.name
    set_name := card.set_name
    set_code := card.set_code
    collector_number := card.collector_number
    released_at := card.released_at
    rarity := card.rarity
    artist := card.artist
    flavor_text := card.flavor_text
    image_uris := pair.1
    back_image_uris := if pair.2 = [] then none else some pair.2
    prices := card.prices.getD []
    scryfall_uri := card.scryfall_uri }

/-- Lexicographic comparison of character lists by code point — the order
Python uses on `str`. -/
def listCharLt : List Char → List Char → Bool
  | [], [] => false
  | [], _ :: _ => true
  | _ :: _, [] => false
  | a :: as, b :: bs =>
      if a < b then true else if b < a then false else listCharLt as bs

/-- Python string comparison `a < b`. -/
def strLt (a b : String) : Bool := listCharLt a.toList b.toList

/-- Stable descending insertion by the string sort key. -/
def insertDescBy (key : PrintingInfo → String) (x : PrintingInfo) :
    List PrintingInfo → List PrintingInfo
  | [] => [x]
  | y :: ys =>
      if strLt (key y) (key x) then x :: y :: ys else y :: insertDescBy key x ys

/-- Stable descending sort by the string sort key, as Python
`list.sort(key=..., reverse=True)` orders when every key is a string. -/
def sortDescBy (key : PrintingInfo → String) :
    List PrintingInfo → List PrintingInfo
  | [] => []
  | x :: xs => insertDescBy key x (sortDescBy key xs)

/-- `printings.sort(key=lambda x: x.get("released_at", ""), reverse=True)`.
Every `printing_info` dict has a `released_at` key (possibly `None`), so the
`.get` default `""` is never used: when at least two records are present and
one of them carries `None`, the sort compares `None` with a `str` and raises
`TypeError`; otherwise it sorts descending by the string key. -/
def sortPrintings (ps : List PrintingInfo) :
    Except String (List PrintingInfo) :=
  if 2 ≤ ps.length ∧ ps.any (fun p => p.released_at = none) then
    .error "TypeError: not supported between instances of NoneType and str"
  else
    .ok (sortDescBy (fun p => p.released_at.getD "") ps)

/-- The response dict of `get_card_printings`; keys a branch does not set
are `none`. -/
structure PrintingsResult where
  data : List PrintingInfo
  total_printings : Nat
  card_name : Option String
  message : Option String
  deriving DecidableEq

/-- The payload returned (and cached) on an upstream 404 for printings. -/
def noPrintingsResult : PrintingsResult :=
  ⟨[], 0, none, some "No printings found for this card."⟩

/-- `get_card_printings(card_name)`. Besides the response it returns the
cache state after the call and the query sent upstream (`none` when
upstream was never contacted). -/
def get_card_printings (card_name : String)
    (c : Cache PrintingsResult) (now : Int)
    (upstream : String → UpstreamResp) :
    Except HTTPErr PrintingsResult × Cache PrintingsResult × Option String :=
  let cache_key := "printings:" ++ pyLower card_name
  match cacheGet c cache_key now with
  | (some payload, c1) => (.ok payload, c1, none)
  | (none, c1) =>
    let query := "!" ++ "\"" ++ card_name ++ "\""
    match upstream query with
    | .notFound =>
        (.ok noPrintingsResult,
         cacheInsert c1 cache_key ⟨noPrintingsResult, now⟩, some query)
    | .ok data _ _ =>
        let printings := data.map normalize_printing
        match sortPrintings printings with
        | .error msg =>
            (.error ⟨500, "Internal server error: " ++ msg⟩, c1, some query)
        | .ok sorted =>
            let result : PrintingsResult :=
              ⟨sorted, sorted.length, some card_name, none⟩
            (.ok result, cacheInsert c1 cache_key ⟨result, now⟩, some query)
    | .timeout =>
        (.error ⟨504, "Request to Scryfall API timed out"⟩, c1, some query)
    | .httpError status body =>
        (.error ⟨status, "Scryfall API error: " ++ body⟩, c1, some query)

/-! ## Helper lemmas -/

theorem countP_of_pointwise {α : Type} (p q : α → Bool) (h : ∀ a, p a = q a) :
    ∀ l : List α, l.countP p = l.countP q := by
  intro l
  induction l with
  | nil => rfl
  | cons x xs ih => simp [List.countP_cons, h, ih]

theorem countP_add_countP_not {α : Type} (p : α → Bool) (l : List α) :
    l.countP p + l.countP (fun a => ! p a) = l.length := by
  induction l with
  | nil => rfl
  | cons x xs ih =>
      simp only [List.countP_cons, List.length_cons]
      cases hx : p x <;> simp <;> omega

theorem cacheGetRaw_erase {α : Type} (c : Cache α) (k : String) :
    cacheGetRaw (cacheErase c k) k = none := by
  induction c with
  | nil => rfl
  | cons p c ih =>
      by_cases hp : p.1 = k
      · simpa [cacheErase, List.filter, hp] using ih
      · simpa [cacheErase, cacheGetRaw, List.filter, List.find?, hp] using ih

theorem cacheGetRaw_insert_self {α : Type} (c : Cache α) (k : String)
    (e : CacheEntry α) : cacheGetRaw (cacheInsert c k e) k = some e := by
  simp [cacheInsert, cacheGetRaw, List.find?]

/-! ## Claims -/

/-- C4: a search request with `q`, `colors`, `types` and `rarity` all absent
returns the fixed empty payload at once, leaves the cache unchanged, and
sends no request upstream. -/
theorem C4_empty_filters_short_circuit (page : Nat) (c : Cache SearchResult)
    (now : Int) (upstream : String → Nat → UpstreamResp) :
    search_cards none page none none none c now upstream =
      (.ok ⟨[], 0, false, page, none,
        some "Please provide a search query or apply filters."⟩, c, none) := by
  rfl

/-- C8: whenever no filter produced a token, the query builder does not
fail: it falls back to the single wildcard token, so the query string is
the one-character wildcard. -/
theorem C8_wildcard_on_empty_build (q colors types rarity : Option String)
    (h : search_parts q colors types rarity = []) :
    build_search_query q colors types rarity = "*" := by
  unfold build_search_query
  rw [h]
  rfl

/-- C8 witness: a text query that is blank after trimming, with all other
filters absent, produces no token and builds the wildcard query. -/
theorem C8_wildcard_witness :
    search_parts (some "   ") none none none = [] ∧
    build_search_query (some "   ") none none none = "*" :=
  ⟨by decide, C8_wildcard_on_empty_build (some "   ") none none none (by decide)⟩

/-- C5: the cache read returns the stored payload exactly when an entry for
the key is resident and its age is strictly below the TTL; a resident entry
at least TTL old is a miss and is deleted by the read. -/
theorem C5_cache_get_spec {α : Type} (c : Cache α) (k : String) (now : Int) :
    (∀ p : α, (cacheGet c k now).1 = some p ↔
      ∃ ts : Int, cacheGetRaw c k = some ⟨p, ts⟩ ∧ now - ts < CACHE_DURATION) ∧
    (∀ (p : α) (ts : Int), cacheGetRaw c k = some ⟨p, ts⟩ →
      CACHE_DURATION ≤ now - ts →
      cacheGet c k now = (none, cacheErase c k) ∧
      cacheGetRaw (cacheGet c k now).2 k = none) := by
  constructor
  · intro p
    unfold cacheGet
    cases h : cacheGetRaw c k with
    | none => simp
    | some e =>
        by_cases hv : is_cache_valid now e.timestamp
        · simp only [hv, if_true]
          constructor
          · intro hp
            simp only [Option.some.injEq] at hp
            subst hp
            exact ⟨e.timestamp, rfl, by simpa [is_cache_valid] using hv⟩
          · rintro ⟨ts, hts, _⟩
            simp only [Option.some.injEq] at hts
            rw [hts]
        · simp only [hv, if_false]
          constructor
          · intro hp
            simp at hp
          · rintro ⟨ts, hts, hlt⟩
            simp only [Option.some.injEq] at hts
            rw [hts] at hv
            exact absurd hlt (by simpa [is_cache_valid] using hv)
  · intro p ts hres hold
    have hv : is_cache_valid now ts = false := by
      simp [is_cache_valid]
      omega
    have h1 : cacheGet c k now = (none, cacheErase c k) := by
      unfold cacheGet
      rw [hres]
      simp [hv]
    exact ⟨h1, by rw [h1]; exact cacheGetRaw_erase c k⟩

/-- C5 witness: an entry created at time 0 and read at time 700 (past the
600-second TTL) misses and is removed. -/
theorem C5_cache_get_witness :
    cacheGetRaw [("k", (⟨5, 0⟩ : CacheEntry Nat))] "k" = some ⟨5, 0⟩ ∧
    cacheGet [("k", (⟨5, 0⟩ : CacheEntry Nat))] "k" 700 =
      (none, cacheErase [("k", (⟨5, 0⟩ : CacheEntry Nat))] "k") ∧
    cacheGetRaw (cacheGet [("k", (⟨5, 0⟩ : CacheEntry Nat))] "k" 700).2 "k" =
      none :=
  ⟨by decide,
   ((C5_cache_get_spec [("k", (⟨5, 0⟩ : CacheEntry Nat))] "k" 700).2 5 0
      (by decide) (by decide)).1,
   ((C5_cache_get_spec [("k", (⟨5, 0⟩ : CacheEntry Nat))] "k" 700).2 5 0
      (by decide) (by decide)).2⟩

/-- C9: the stats scan reports `total_entries = valid_entries +
expired_entries`, counts an entry valid exactly when its age is strictly
below the TTL and expired otherwise, and returns the cache unchanged. -/
theorem C9_cache_stats_partition {α : Type} (c : Cache α) (now : Int) :
    (get_cache_stats c now).1.total_entries =
      (get_cache_stats c now).1.valid_entries +
      (get_cache_stats c now).1.expired_entries ∧
    (get_cache_stats c now).1.valid_entries =
      c.countP (fun p => decide (now - p.2.timestamp < CACHE_DURATION)) ∧
    (get_cache_stats c now).1.expired_entries =
      c.countP (fun p => decide (CACHE_DURATION ≤ now - p.2.timestamp)) ∧
    (get_cache_stats c now).2 = c := by
  refine ⟨?_, rfl, ?_, rfl⟩
  · show c.length =
      c.countP (fun p => is_cache_valid now p.2.timestamp) +
      c.countP (fun p => ¬ is_cache_valid now p.2.timestamp)
    have hpt : ∀ p : String × CacheEntry α,
        (decide (¬ is_cache_valid now p.2.timestamp = true)) =
        (! is_cache_valid now p.2.timestamp) := by
      intro p
      cases is_cache_valid now p.2.timestamp <;> simp
    rw [countP_of_pointwise _ _ hpt c]
    exact (countP_add_countP_not
      (fun p => is_cache_valid now p.2.timestamp) c).symm
  · refine countP_of_pointwise _ _ ?_ c
    intro p
    by_cases hp : now - p.2.timestamp < CACHE_DURATION
    · have h1 : is_cache_valid now p.2.timestamp = true := by
        simpa [is_cache_valid] using hp
      have h2 : ¬ CACHE_DURATION ≤ now - p.2.timestamp := by omega
      simp [h1, h2]
    · have h1 : is_cache_valid now p.2.timestamp = false := by
        simpa [is_cache_valid] using hp
      have h2 : CACHE_DURATION ≤ now - p.2.timestamp := by omega
      simp [h1, h2]

/-- C2 counterexample: the color parameters `"r"` and `"R"` are semantically
equal (identical normalized color components, and even identical query
strings), yet their cache keys differ, because the key embeds the raw
parameter string; color reordering also changes both strings. -/
theorem C2_raw_key_counterexample :
    (pySplit "r" ',').map (fun s => pyUpper (pyStrip s)) =
      (pySplit "R" ',').map (fun s => pyUpper (pyStrip s)) ∧
    build_search_query (some "dragon") (some "r") none none =
      build_search_query (some "dragon") (some "R") none none ∧
    get_cache_key "dragon" 1 "r" "" "" ≠ get_cache_key "dragon" 1 "R" "" "" ∧
    build_search_query none (some "R,U") none none ≠
      build_search_query none (some "U,R") none none ∧
    get_cache_key "" 1 "R,U" "" "" ≠ get_cache_key "" 1 "U,R" "" "" := by
  refine ⟨rfl, rfl, ?_, ?_, ?_⟩ <;> decide

/-- C2 amended: the query string is invariant under differences of letter
case (and surrounding whitespace) in the colors, types and rarity
parameters, because the builder normalizes each component; the cache key,
by contrast, is built from the raw parameter strings (`C2_raw_key_counterexample`). -/
theorem C2_query_case_invariance
    (q colors1 colors2 types1 types2 rarity1 rarity2 : Option String)
    (hc : pyTruthy colors1 = pyTruthy colors2)
    (hcl : (pySplit (orEmpty colors1) ',').map (fun s => pyUpper (pyStrip s)) =
           (pySplit (orEmpty colors2) ',').map (fun s => pyUpper (pyStrip s)))
    (ht : pyTruthy types1 = pyTruthy types2)
    (htl : (pySplit (orEmpty types1) ',').map (fun s => pyLower (pyStrip s)) =
           (pySplit (orEmpty types2) ',').map (fun s => pyLower (pyStrip s)))
    (hr : pyTruthy rarity1 = pyTruthy rarity2)
    (hrl : pyLower (orEmpty rarity1) = pyLower (orEmpty rarity2)) :
    build_search_query q colors1 types1 rarity1 =
      build_search_query q colors2 types2 rarity2 := by
  have htl2 : (pySplit (orEmpty types1) ',').map
        (fun t => "t:" ++ pyLower (pyStrip t)) =
      (pySplit (orEmpty types2) ',').map
        (fun t => "t:" ++ pyLower (pyStrip t)) := by
    have h2 := congrArg (List.map (fun x => "t:" ++ x)) htl
    simpa [List.map_map, Function.comp] using h2
  unfold build_search_query search_parts
  rw [hc, hcl, ht, htl2, hr, hrl]

/-- C2 witness: filter sets differing only in case and whitespace build the
same query string. -/
theorem C2_query_case_invariance_witness :
    build_search_query (some "dragon") (some "r, u") (some "Creature") (some "RARE") =
      build_search_query (some "dragon") (some "R,U") (some "creature") (some "rare") :=
  C2_query_case_invariance (some "dragon") (some "r, u") (some "R,U")
    (some "Creature") (some "creature") (some "RARE") (some "rare")
    (by decide) (by decide) (by decide) (by decide) (by decide) (by decide)

/-- A raw double-faced record whose top level and front face disagree: the
top level has a mana cost and a power, the front face has a different mana
cost and no power. -/
def cardC1x : RawCard :=
  { emptyRawCard with
    name := some "Example"
    mana_cost := some "A"
    power := some "5"
    card_faces := some
      [{ emptyRawFace with name := some "FrontName", mana_cost := some "B" }] }

/-- C1 counterexample: the raw top-level record has `mana_cost = "A"` and
`power = "5"`, but the normalized output takes `mana_cost = "B"` from the
front face and `power = none` — the top-level values are NOT used even
though the raw record has them. -/
theorem C1_front_wins_counterexample :
    pyTruthyFaces cardC1x.card_faces = true ∧
    cardC1x.mana_cost = some "A" ∧
    (normalize_card cardC1x).mana_cost = some "B" ∧
    cardC1x.power = some "5" ∧
    (normalize_card cardC1x).power = none := by
  refine ⟨rfl, rfl, rfl, rfl, rfl⟩

/-- C1 amended: for a raw record with a non-empty faces array, the
normalized `mana_cost`, `type_line` and `oracle_text` come from the FRONT
face whenever the front face has a non-empty value, and fall back to the
raw top-level record only when the front face lacks them; `image_uris`
follows the same policy with the empty dict as the fallback trigger; and
`power`/`toughness` are always the front face's values, never the top
level's. In particular a record with a front-face power of 2 and toughness
of 3 normalizes to power 2 and toughness 3 whatever the top level holds. -/
theorem C1_front_face_priority (card : RawCard) (f : RawFace)
    (rest : List RawFace) (h : card.card_faces = some (f :: rest)) :
    (normalize_card card).power = f.power ∧
    (normalize_card card).toughness = f.toughness ∧
    (pyTruthy f.mana_cost = true →
      (normalize_card card).mana_cost = f.mana_cost) ∧
    (pyTruthy f.mana_cost = false →
      (normalize_card card).mana_cost = card.mana_cost) ∧
    (pyTruthy f.type_line = true →
      (normalize_card card).type_line = f.type_line) ∧
    (pyTruthy f.type_line = false →
      (normalize_card card).type_line = card.type_line) ∧
    (pyTruthy f.oracle_text = true →
      (normalize_card card).oracle_text = f.oracle_text) ∧
    (pyTruthy f.oracle_text = false →
      (normalize_card card).oracle_text = card.oracle_text) ∧
    (∀ l, f.image_uris = some l → l ≠ [] →
      (normalize_card card).image_uris = l) ∧
    ((f.image_uris = none ∨ f.image_uris = some []) →
      (normalize_card card).image_uris = card.image_uris.getD []) := by
  have hb : pyTruthyFaces card.card_faces = true := by
    rw [h]
    simp [pyTruthyFaces]
  unfold normalize_card
  rw [hb, if_pos rfl, h]
  simp only [Option.getD_some, List.headD_cons]
  refine ⟨by trivial, by trivial, ?_, ?_, ?_, ?_, ?_, ?_, ?_, ?_⟩
  · intro hmc
    simp [pyOrStr, hmc]
  · intro hmc
    simp [pyOrStr, hmc]
  · intro htl
    simp [pyOrStr, htl]
  · intro htl
    simp [pyOrStr, htl]
  · intro hot
    simp [pyOrStr, hot]
  · intro hot
    simp [pyOrStr, hot]
  · intro l hl hne
    simp [pyOrDict, hl, hne]
  · intro hl
    rcases hl with hl | hl <;> simp [pyOrDict, hl]

/-- The raw record of the spec's double-face example: empty top-level
power/toughness, front face with power 2 and toughness 3. -/
def cardC1w : RawCard :=
  { emptyRawCard with
    name := some "Wolf"
    mana_cost := some "TOP"
    power := some ""
    toughness := some ""
    card_faces := some
      [{ emptyRawFace with
          name := some "WolfFront"
          mana_cost := some "FM"
          power := some "2"
          toughness := some "3" }] }

/-- C1 witness: the spec's example record normalizes to power 2 and
toughness 3 (from the front face), and its front-face mana cost wins. -/
theorem C1_front_face_priority_witness :
    cardC1w.card_faces = some
      [{ emptyRawFace with
          name := some "WolfFront"
          mana_cost := some "FM"
          power := some "2"
          toughness := some "3" }] ∧
    (normalize_card cardC1w).power = some "2" ∧
    (normalize_card cardC1w).toughness = some "3" ∧
    (normalize_card cardC1w).mana_cost = some "FM" :=
  ⟨rfl,
   (C1_front_face_priority cardC1w
      { emptyRawFace with
          name := some "WolfFront"
          mana_cost := some "FM"
          power := some "2"
          toughness := some "3" } [] rfl).1,
   (C1_front_face_priority cardC1w
      { emptyRawFace with
          name := some "WolfFront"
          mana_cost := some "FM"
          power := some "2"
          toughness := some "3" } [] rfl).2.1,
   (C1_front_face_priority cardC1w
      { emptyRawFace with
          name := some "WolfFront"
          mana_cost := some "FM"
          power := some "2"
          toughness := some "3" } [] rfl).2.2.1 (by decide)⟩

/-- A raw record whose faces array has two entries, the second being the
empty dict. -/
def cardC7x : RawCard :=
  { emptyRawCard with
    name := some "Twofaced"
    card_faces := some
      [{ emptyRawFace with name := some "FrontOnly" }, emptyRawFace] }

/-- C7 counterexample: a second face entry exists in the raw input (the
faces array has length 2), yet the normalized `faces.back` is null, because
the second face dict is empty and hence falsy. -/
theorem C7_empty_back_counterexample :
    (cardC7x.card_faces.getD []).length = 2 ∧
    (normalize_card cardC7x).card_faces.map (fun cf => cf.back) = some none := by
  refine ⟨rfl, ?_⟩
  decide

/-- C7 amended: with exactly one face entry, `faces.back` is null (never an
object with all-null fields); in general a back-face object appears if and
only if a second face entry exists AND that face dict is non-empty. -/
theorem C7_back_face_iff (card : RawCard) (faces : List RawFace)
    (h : card.card_faces = some faces) (hne : faces ≠ []) :
    (normalize_card card).card_faces.map (fun cf => cf.back.isSome) =
      some (((faces[1]?).map RawFace.truthy).getD false) ∧
    (faces.length = 1 →
      (normalize_card card).card_faces.map (fun cf => cf.back) = some none) := by
  have hb : pyTruthyFaces card.card_faces = true := by
    rw [h]
    simpa [pyTruthyFaces] using hne
  unfold normalize_card
  rw [hb, if_pos rfl, h]
  simp only [Option.getD_some, Option.map_some]
  constructor
  · cases hf : faces[1]? with
    | none => simp
    | some bf =>
        cases hbt : bf.truthy <;> simp [hf, hbt]
  · intro h1
    obtain ⟨f, hfaces⟩ : ∃ f, faces = [f] := by
      cases faces with
      | nil => exact absurd h1 (by simp)
      | cons x xs =>
          cases xs with
          | nil => exact ⟨x, rfl⟩
          | cons y ys => simp at h1
    subst hfaces
    simp

/-- A raw record with two non-empty faces, and one with exactly one face. -/
def cardC7w : RawCard :=
  { emptyRawCard with
    name := some "DayNight"
    card_faces := some
      [{ emptyRawFace with name := some "Day" },
       { emptyRawFace with name := some "Night" }] }

/-- A raw record with exactly one face entry. -/
def cardC7s : RawCard :=
  { emptyRawCard with
    name := some "Solo"
    card_faces := some [{ emptyRawFace with name := some "SoloFace" }] }

/-- C7 witness: a record with two non-empty faces gets a back-face object,
and a record with exactly one face gets a null back. -/
theorem C7_back_face_iff_witness :
    (normalize_card cardC7w).card_faces.map (fun cf => cf.back.isSome) =
      some true ∧
    (normalize_card cardC7s).card_faces.map (fun cf => cf.back) = some none :=
  ⟨(C7_back_face_iff cardC7w
      [{ emptyRawFace with name := some "Day" },
       { emptyRawFace with name := some "Night" }]
      rfl (by decide)).1,
   (C7_back_face_iff cardC7s
      [{ emptyRawFace with name := some "SoloFace" }]
      rfl (by decide)).2 rfl⟩

/-- A raw printing with a release date. -/
def rC3dated : RawCard :=
  { emptyRawCard with name := some "A", released_at := some "2020-01-01" }

/-- A raw printing with no release date at all. -/
def rC3missing : RawCard :=
  { emptyRawCard with name := some "B" }

/-- Raw printings carrying the spec example's release-date strings
(the empty string being present, not missing). -/
def rC3a : RawCard :=
  { emptyRawCard with name := some "E", released_at := some "2020-01-01" }

def rC3b : RawCard :=
  { emptyRawCard with name := some "E", released_at := some "" }

def rC3c : RawCard :=
  { emptyRawCard with name := some "E", released_at := some "2023-05-01" }

/-- C3: the sort key is `x.get("released_at", "")`, but every normalized
printing dict carries a `released_at` key (a `None` when the raw record
lacks the date), so the `""` default is dead: a printings list in which one
record has a date and another lacks it makes the sort compare `None` with a
string and raise, and the endpoint answers 500 with nothing cached —
whereas dates that are present (even as the empty string) sort descending
exactly as the spec example states. -/
theorem C3_missing_date_raises :
    get_card_printings "Fire" [] 0
        (fun _ => UpstreamResp.ok [rC3dated, rC3missing] 2 false) =
      (Except.error ⟨500,
        "Internal server error: TypeError: not supported between instances of NoneType and str"⟩,
       [], some ("!" ++ "\"" ++ "Fire" ++ "\"")) ∧
    (get_card_printings "Fire" [] 0
        (fun _ => UpstreamResp.ok [rC3a, rC3b, rC3c] 3 false)).1.map
      (fun r => r.data.map (fun p => p.released_at)) =
      Except.ok [some "2023-05-01", some "2020-01-01", some ""] := by
  constructor <;> rfl

/-- C6: on a cache miss for a present filter set, an upstream 404 is not an
error: the endpoint answers the fixed empty payload, and that payload is
inserted into the cache under the request's key with the current timestamp,
exactly like a successful result. -/
theorem C6_upstream_404_cached (q : Option String) (page : Nat)
    (colors types rarity : Option String) (c : Cache SearchResult)
    (now : Int) (upstream : String → Nat → UpstreamResp)
    (hsome : pyTruthy q = true ∨ pyTruthy colors = true ∨
      pyTruthy types = true ∨ pyTruthy rarity = true)
    (hmiss : (cacheGet c (get_cache_key (orEmpty q) page (orEmpty colors)
      (orEmpty types) (orEmpty rarity)) now).1 = none)
    (h404 : upstream (build_search_query q colors types rarity) page =
      UpstreamResp.notFound) :
    search_cards q page colors types rarity c now upstream =
      (Except.ok (notFoundResult page),
       cacheInsert (cacheGet c (get_cache_key (orEmpty q) page (orEmpty colors)
           (orEmpty types) (orEmpty rarity)) now).2
         (get_cache_key (orEmpty q) page (orEmpty colors) (orEmpty types)
           (orEmpty rarity))
         ⟨notFoundResult page, now⟩,
       some (build_search_query q colors types rarity, page)) ∧
    cacheGetRaw
      (cacheInsert (cacheGet c (get_cache_key (orEmpty q) page (orEmpty colors)
          (orEmpty types) (orEmpty rarity)) now).2
        (get_cache_key (orEmpty q) page (orEmpty colors) (orEmpty types)
          (orEmpty rarity))
        ⟨notFoundResult page, now⟩)
      (get_cache_key (orEmpty q) page (orEmpty colors) (orEmpty types)
        (orEmpty rarity)) = some ⟨notFoundResult page, now⟩ := by
  have hcond : ¬ (¬ pyTruthy q = true ∧ ¬ pyTruthy colors = true ∧
      ¬ pyTruthy types = true ∧ ¬ pyTruthy rarity = true) := by
    rcases hsome with h | h | h | h <;> simp [h]
  constructor
  · rcases hget : cacheGet c (get_cache_key (orEmpty q) page (orEmpty colors)
      (orEmpty types) (orEmpty rarity)) now with ⟨o, c1⟩
    have ho : o = none := by
      rw [hget] at hmiss
      exact hmiss
    subst ho
    simp only [search_cards]
    rw [if_neg hcond, hget, h404]
  · exact cacheGetRaw_insert_self _ _ _

/-- C6 witness: a concrete 404 round trip populates the cache with the
empty payload. -/
theorem C6_upstream_404_witness :
    search_cards (some "x") 1 none none none [] 0
        (fun _ _ => UpstreamResp.notFound) =
      (Except.ok (notFoundResult 1),
       [("search:x:1:::", (⟨notFoundResult 1, 0⟩ : CacheEntry SearchResult))],
       some ("x", 1)) ∧
    cacheGetRaw
      [("search:x:1:::", (⟨notFoundResult 1, 0⟩ : CacheEntry SearchResult))]
      "search:x:1:::" = some ⟨notFoundResult 1, 0⟩ :=
  ⟨(C6_upstream_404_cached (some "x") 1 none none none [] 0
      (fun _ _ => UpstreamResp.notFound) (Or.inl (by decide)) rfl rfl).1,
   (C6_upstream_404_cached (some "x") 1 none none none [] 0
      (fun _ _ => UpstreamResp.notFound) (Or.inl (by decide)) rfl rfl).2⟩

/-- C10: the printings cache key is the lower-cased name under the
printings namespace, so two requests whose names differ only in case share
one entry: the first (a miss) stores its payload — whose `card_name` echoes
the first request's original casing — and the second, within the TTL,
returns that exact payload without contacting upstream. -/
theorem C10_printings_cache_case_insensitive
    (name1 name2 : String) (c : Cache PrintingsResult)
    (t0 t1 : Int) (up1 up2 : String → UpstreamResp)
    (data : List RawCard) (total : Nat) (more : Bool)
    (sorted : List PrintingInfo)
    (hlow : pyLower name2 = pyLower name1)
    (hmiss : cacheGetRaw c ("printings:" ++ pyLower name1) = none)
    (hup : up1 ("!" ++ "\"" ++ name1 ++ "\"") = UpstreamResp.ok data total more)
    (hsort : sortPrintings (data.map normalize_printing) = Except.ok sorted)
    (htime : t1 - t0 < CACHE_DURATION) :
    get_card_printings name1 c t0 up1 =
      (Except.ok ⟨sorted, sorted.length, some name1, none⟩,
       cacheInsert c ("printings:" ++ pyLower name1)
         ⟨⟨sorted, sorted.length, some name1, none⟩, t0⟩,
       some ("!" ++ "\"" ++ name1 ++ "\"")) ∧
    get_card_printings name2
        (cacheInsert c ("printings:" ++ pyLower name1)
          ⟨⟨sorted, sorted.length, some name1, none⟩, t0⟩) t1 up2 =
      (Except.ok ⟨sorted, sorted.length, some name1, none⟩,
       cacheInsert c ("printings:" ++ pyLower name1)
         ⟨⟨sorted, sorted.length, some name1, none⟩, t0⟩,
       none) := by
  have hget1 : cacheGet c ("printings:" ++ pyLower name1) t0 = (none, c) := by
    unfold cacheGet
    rw [hmiss]
  have hraw := cacheGetRaw_insert_self c ("printings:" ++ pyLower name1)
    ⟨⟨sorted, sorted.length, some name1, none⟩, t0⟩
  have hv : is_cache_valid t1 t0 = true := by
    simpa [is_cache_valid] using htime
  have hget2 : cacheGet
      (cacheInsert c ("printings:" ++ pyLower name1)
        ⟨⟨sorted, sorted.length, some name1, none⟩, t0⟩)
      ("printings:" ++ pyLower name1) t1 =
      (some ⟨sorted, sorted.length, some name1, none⟩,
       cacheInsert c ("printings:" ++ pyLower name1)
         ⟨⟨sorted, sorted.length, some name1, none⟩, t0⟩) := by
    simp only [cacheGet, hraw, hv, if_true]
  constructor
  · simp only [get_card_printings, hget1, hup, hsort]
  · simp only [get_card_printings, hlow, hget2]

/-- The raw printing used by the C10 witness. -/
def rC10 : RawCard :=
  { emptyRawCard with name := some "Fire", released_at := some "2020-01-01" }

/-- C10 witness: a lookup of Fire followed by a lookup of FIRE within the
TTL hits the same entry, echoing the first request's casing, with no second
upstream call. -/
theorem C10_printings_cache_witness :
    get_card_printings "Fire" [] 0 (fun _ => UpstreamResp.ok [rC10] 1 false) =
      (Except.ok ⟨[normalize_printing rC10], 1, some "Fire", none⟩,
       [("printings:fire",
         (⟨⟨[normalize_printing rC10], 1, some "Fire", none⟩, 0⟩ :
           CacheEntry PrintingsResult))],
       some ("!" ++ "\"" ++ "Fire" ++ "\"")) ∧
    get_card_printings "FIRE"
        [("printings:fire",
          (⟨⟨[normalize_printing rC10], 1, some "Fire", none⟩, 0⟩ :
            CacheEntry PrintingsResult))] 599
        (fun _ => UpstreamResp.notFound) =
      (Except.ok ⟨[normalize_printing rC10], 1, some "Fire", none⟩,
       [("printings:fire",
         (⟨⟨[normalize_printing rC10], 1, some "Fire", none⟩, 0⟩ :
           CacheEntry PrintingsResult))],
       none) :=
  ⟨(C10_printings_cache_case_insensitive "Fire" "FIRE" [] 0 599
      (fun _ => UpstreamResp.ok [rC10] 1 false)
      (fun _ => UpstreamResp.notFound) [rC10] 1 false
      [normalize_printing rC10] (by decide) rfl rfl rfl (by decide)).1,
   (C10_printings_cache_case_insensitive "Fire" "FIRE" [] 0 599
      (fun _ => UpstreamResp.ok [rC10] 1 false)
      (fun _ => UpstreamResp.notFound) [rC10] 1 false
      [normalize_printing rC10] (by decide) rfl rfl rfl (by decide)).2⟩
